import Mathlib

/-!
Verification of the liveness-detection core of the AI-Powered Face
Verification System (JS sources: `js/main.js` with `LivenessApp` and
`LivenessChallenger`, the `AntiSpoofing`, `EyeReflection`, `FaceDetector`,
`MicroExpression` modules, `js/depthEstimator.js`, and the
`PassiveLiveness` excerpt shown in the repository README).

JS numbers are embedded as rationals where the code only performs
field arithmetic and comparisons, and as reals where the code takes
square roots (`Math.sqrt` in the geometric helpers).  `Math.round` is
embedded as `jsRound` (floor of x + 1/2, which is the JS rounding rule).
JS division by zero produces `NaN`, which fails every `<`/`>` comparison;
the rational embedding returns 0 there, and in every place this file
evaluates such a division the surrounding comparisons are false in both
semantics.  Arrays are embedded either as `List`s or as length-plus-index
functions, matching how the source accesses them.
-/

namespace FaceVerify

/-- JS `Math.round` on rationals: round half toward positive infinity. -/
def jsRound (q : ℚ) : ℤ := ⌊q + 1/2⌋

/-- JS `Math.min` clamped to a constant rational (`Math.min(score, 1.0)`). -/
def jsMin (a b : ℚ) : ℚ := min a b

/-- JS `Math.max`. -/
def jsMax (a b : ℚ) : ℚ := max a b

/-! ## Rolling frame histories

All analyzer histories use the same idiom
(`LivenessChallenger.addToHistory`, `AntiSpoofing.addToHistory`,
`EyeReflection.addToHistory`, `MicroExpression.addToHistory`,
`DepthEstimator.addToHistory`, `PassiveLiveness.addFrameToHistory`):
`push` the new entry, then `shift` (drop the oldest) once the length
exceeds the capacity constant of the module. -/

/-- One step of every `addToHistory` method: `history.push(x)`, then
`if (history.length > cap) history.shift()`. -/
def pushBounded (cap : ℕ) (h : List α) (x : α) : List α :=
  let h' := h ++ [x]
  if cap < h'.length then h'.tail else h'

/-- Inserting a whole sequence, oldest first, starting from a buffer. -/
def pushAll (cap : ℕ) (h : List α) (xs : List α) : List α :=
  xs.foldl (pushBounded cap) h

/-- Embeds `LivenessChallenger.addToHistory` capacity (`maxHistoryLength = 30`). -/
def challengerMaxHistoryLength : ℕ := 30

/-- Embeds `AntiSpoofing` history capacity (`maxHistory = 10`). -/
def antiSpoofMaxHistory : ℕ := 10

/-- Embeds `EyeReflection` history capacity (`maxHistory = 8`). -/
def eyeMaxHistory : ℕ := 8

/-- Embeds `MicroExpression` history capacity (`maxHistory = 20`). -/
def microMaxHistory : ℕ := 20

/-- Embeds `DepthEstimator` history capacity (`maxHistory = 10`). -/
def depthMaxHistory : ℕ := 10

/-! ## Security score set and aggregator (`LivenessApp`) -/

/-- Embeds `LivenessApp.securityScores`: one value per named dimension. -/
structure SecurityScores where
  active : ℚ
  passive : ℚ
  antiSpoof : ℚ
  depth : ℚ
  eyeReflection : ℚ
  microExpression : ℚ

/-- Embeds `LivenessApp.calculateCombinedScore` (main.js): fixed weighted sum
of the six dimensions, rounded. -/
def calculateCombinedScore (s : SecurityScores) : ℤ :=
  jsRound (s.active * (30/100) + s.passive * (25/100) + s.antiSpoof * (25/100) +
    s.depth * (10/100) + s.eyeReflection * (5/100) + s.microExpression * (5/100))

/-- Spec-side formula of §4.5 / §8, written from the spec words
"active 30%, passive 25%, anti-spoof 25%, depth 10%, eye-reflection 5%,
micro-expression 5%", for comparison with `calculateCombinedScore`. -/
def specCombinedScore (s : SecurityScores) : ℤ :=
  jsRound ((30 * s.active + 25 * s.passive + 25 * s.antiSpoof +
    10 * s.depth + 5 * s.eyeReflection + 5 * s.microExpression) / 100)

/-- Embeds `LivenessApp.completeVerification`: `finalSuccess = success && combinedScore >= 80`. -/
def finalSuccess (success : Bool) (s : SecurityScores) : Bool :=
  success && decide (80 ≤ calculateCombinedScore s)

/-- The all-100 score set. -/
def allHundred : SecurityScores := ⟨100, 100, 100, 100, 100, 100⟩

/-- The score set with `active = 0` and all other dimensions 100. -/
def activeZero : SecurityScores := ⟨0, 100, 100, 100, 100, 100⟩

/-! ## Theorems: score aggregation (C1) -/

/-- Claim C1. At attempt finalization the combined score equals the fixed
weighted sum active·0.30 + passive·0.25 + antiSpoof·0.25 + depth·0.10 +
eyeReflection·0.05 + microExpression·0.05 (rounded), the attempt is
accepted iff the challenge sequence fully succeeded and the combined
score is at least 80, all six dimensions at 100 give combined 100, and
active = 0 with all other dimensions at 100 gives combined 70. -/
theorem combined_score_weighted_sum_and_acceptance :
    (∀ s : SecurityScores, calculateCombinedScore s = specCombinedScore s) ∧
    (∀ (success : Bool) (s : SecurityScores),
      finalSuccess success s = true ↔ (success = true ∧ 80 ≤ calculateCombinedScore s)) ∧
    calculateCombinedScore allHundred = 100 ∧
    calculateCombinedScore activeZero = 70 := by
  refine ⟨fun s => ?_, fun success s => ?_,
    by norm_num [calculateCombinedScore, allHundred, jsRound, Int.floor_eq_iff],
    by norm_num [calculateCombinedScore, activeZero, jsRound, Int.floor_eq_iff]⟩
  · unfold calculateCombinedScore specCombinedScore jsRound
    congr 1
    ring
  · simp [finalSuccess]

/-! ## Theorems: rolling history FIFO (C8) -/

lemma pushBounded_eq_drop (cap : ℕ) (h : List α) (x : α) (hh : h.length ≤ cap) :
    pushBounded cap h x = (h ++ [x]).drop (h.length + 1 - cap) := by
  unfold pushBounded
  rcases lt_or_ge h.length cap with hlt | hge
  · rw [if_neg (by simp; omega)]
    have : h.length + 1 - cap = 0 := by omega
    simp [this]
  · have hcap : h.length = cap := le_antisymm hh hge
    rw [if_pos (by simp; omega)]
    have : h.length + 1 - cap = 1 := by omega
    rw [this, ← List.drop_one]

lemma pushAll_eq_drop (cap : ℕ) :
    ∀ (xs h : List α), h.length ≤ cap →
      pushAll cap h xs = (h ++ xs).drop (h.length + xs.length - cap)
  | [], h, hh => by
    have h0 : h.length - cap = 0 := by omega
    simp [pushAll, h0]
  | x :: xs, h, hh => by
    have step := pushBounded_eq_drop cap h x hh
    rw [pushAll, List.foldl_cons, ← pushAll]
    rcases lt_or_ge h.length cap with hlt | hge
    · have hb : pushBounded cap h x = h ++ [x] := by
        rw [step]; have : h.length + 1 - cap = 0 := by omega
        simp [this]
      rw [hb, pushAll_eq_drop cap xs (h ++ [x]) (by simp; omega)]
      have harr : h ++ [x] ++ xs = h ++ x :: xs := by simp
      rw [harr]
      congr 1
      simp
      omega
    · have hcap : h.length = cap := le_antisymm hh hge
      have hb : pushBounded cap h x = (h ++ [x]).drop 1 := by
        rw [step]; congr 1; omega
      have htl : ((h ++ [x]).drop 1).length ≤ cap := by simp; omega
      rw [hb, pushAll_eq_drop cap xs _ htl]
      have h1 : (h ++ [x]).drop 1 ++ xs = ((h ++ [x]) ++ xs).drop 1 :=
        (List.drop_append_of_le_length (by simp)).symm
      rw [h1, List.drop_drop]
      have h2 : (h ++ [x]) ++ xs = h ++ x :: xs := by simp
      rw [h2]
      congr 1
      simp
      omega

/-- Claim C8. Every rolling history buffer stays within its configured
capacity under any sequence of insertions, and insertion at capacity
evicts oldest-first: the buffer that results from inserting a whole
sequence starting empty is exactly the suffix of the last `cap` entries
in arrival order; in particular inserting `N + 5` entries into a
capacity-`N` buffer leaves exactly the last `N`, in order. -/
theorem history_capacity_and_fifo : ∀ (α : Type) (cap : ℕ) (xs : List α),
    (pushAll cap [] xs).length ≤ cap ∧
    pushAll cap [] xs = xs.drop (xs.length - cap) ∧
    (xs.length = cap + 5 → pushAll cap [] xs = xs.drop 5) := by
  intro α cap xs
  have key := pushAll_eq_drop cap xs ([] : List α) (by simp)
  simp only [List.nil_append, List.length_nil, Nat.zero_add] at key
  refine ⟨?_, key, fun hlen => ?_⟩
  · rw [key, List.length_drop]
    omega
  · rw [key, hlen]
    congr 1
    omega

/-- Witness for C8: inserting 8 distinct markers into a capacity-3
buffer leaves exactly the last 3, in order. -/
theorem history_capacity_and_fifo_witness :
    pushAll 3 ([] : List ℕ) [1, 2, 3, 4, 5, 6, 7, 8] = [6, 7, 8] ∧
    (pushAll 3 ([] : List ℕ) [1, 2, 3, 4, 5, 6, 7, 8]).length ≤ 3 := by
  have h := history_capacity_and_fifo ℕ 3 [1, 2, 3, 4, 5, 6, 7, 8]
  exact ⟨by rw [h.2.2 (by decide)]; rfl, h.1⟩

/-! ## Challenge pool and selector (`LivenessChallenger`) -/

/-- The identifiers of the three members of `LivenessChallenger.challenges`. -/
inductive ChallengeId
  | blink
  | smile
  | turnHead
  deriving DecidableEq

/-- One member of the challenge pool: id and timeout duration in
milliseconds.  The display strings (name, instruction, icon) and the
bound `verify` method of the source object are not needed by any claim
and are modelled separately (the verifiers below). -/
structure Challenge where
  id : ChallengeId
  duration : ℕ
  deriving DecidableEq

/-- Embeds `LivenessChallenger.challenges`: the fixed pool
(blink 10000 ms, smile 8000 ms, turnHead 12000 ms). -/
def challenges : List Challenge :=
  [⟨.blink, 10000⟩, ⟨.smile, 8000⟩, ⟨.turnHead, 12000⟩]

/-- An entry of `LivenessChallenger.challengeHistory`: the result record
pushed by `completeChallenge` (id, success; the duration field is not
read by any of the verified operations). -/
structure ChallengeResult where
  id : ChallengeId
  success : Bool
  deriving DecidableEq

/-- The `availableChallenges` local of
`LivenessChallenger.getRandomChallenge`: pool members whose id does not
occur in the challenge history. -/
def availableFor (challengeHistory : List ChallengeResult) : List Challenge :=
  challenges.filter (fun c => ! challengeHistory.any (fun h => h.id = c.id))

/-- Embeds `LivenessChallenger.getRandomChallenge`.  `randomIndex` stands for
the source's `Math.floor(Math.random() * availableChallenges.length)`.
Returns the selected challenge (if any) and the updated
`challengeHistory` (the method clears the history when the pool is
exhausted). -/
def getRandomChallenge (challengeHistory : List ChallengeResult) (randomIndex : ℕ) :
    Option Challenge × List ChallengeResult :=
  let availableChallenges := availableFor challengeHistory
  if availableChallenges.length = 0 then (none, [])
  else (availableChallenges[randomIndex]?, challengeHistory)

/-! ## Theorems: challenge selection (C3) -/

/-- Claim C3, counterexample.  The claim says the selector returns none
only if the pool itself is empty.  In the code, once all three pool
members appear in the history, `getRandomChallenge` resets the used-set
but returns none in that same call, even though the pool is non-empty. -/
theorem selectNext_none_on_exhausted_nonempty_pool :
    (getRandomChallenge
      [⟨.blink, true⟩, ⟨.smile, true⟩, ⟨.turnHead, true⟩] 0).1 = none ∧
    challenges.length ≠ 0 := by
  decide

/-- Claim C3, amended.  The selector never returns a descriptor whose id is
already in the used history; when every pool member is used it resets
the history to empty and returns none in that call (so all descriptors
become eligible again for the next call); and whenever an unused
descriptor remains (and the random index is in range, as
`Math.floor(Math.random()*len)` always is), it returns one. -/
theorem selectNext_no_repeat_and_reset :
    ∀ (history : List ChallengeResult) (r : ℕ),
      (∀ c, (getRandomChallenge history r).1 = some c →
        c ∈ challenges ∧ ∀ h ∈ history, h.id ≠ c.id) ∧
      (availableFor history = [] →
        (getRandomChallenge history r).1 = none ∧ (getRandomChallenge history r).2 = []) ∧
      (r < (availableFor history).length →
        ∃ c, (getRandomChallenge history r).1 = some c) := by
  intro history r
  refine ⟨fun c hc => ?_, fun hempty => ?_, fun hr => ?_⟩
  · unfold getRandomChallenge at hc
    by_cases hl : (availableFor history).length = 0
    · simp [hl] at hc
    · simp only [hl, if_false] at hc
      have hmem : c ∈ availableFor history := by
        have := List.getElem?_mem hc
        exact this
      unfold availableFor at hmem
      rw [List.mem_filter] at hmem
      refine ⟨hmem.1, fun h hh => ?_⟩
      have hna := hmem.2
      simp only [Bool.not_eq_true', List.any_eq_false] at hna
      intro hid
      have := hna h hh
      simp [hid] at this
  · unfold getRandomChallenge
    simp [hempty]
  · unfold getRandomChallenge
    have hl : ¬ (availableFor history).length = 0 := by omega
    simp only [hl, if_false]
    exact ⟨(availableFor history)[r], List.getElem?_eq_getElem hr⟩

/-- Witness for C3's amended theorem: with an empty history the selector
returns the first pool member; with a fully-used history it returns none
and resets the history. -/
theorem selectNext_no_repeat_and_reset_witness :
    (∃ c, (getRandomChallenge [] 0).1 = some c) ∧
    ((getRandomChallenge [⟨.blink, false⟩, ⟨.smile, true⟩, ⟨.turnHead, true⟩] 2).1 = none ∧
      (getRandomChallenge [⟨.blink, false⟩, ⟨.smile, true⟩, ⟨.turnHead, true⟩] 2).2 = []) := by
  refine ⟨(selectNext_no_repeat_and_reset [] 0).2.2 (by decide), ?_⟩
  exact (selectNext_no_repeat_and_reset
    [⟨.blink, false⟩, ⟨.smile, true⟩, ⟨.turnHead, true⟩] 2).2.1 (by decide)

/-! ## Anti-spoofing fusion (`AntiSpoofing` module)

`AntiSpoofing.analyze` draws the video frame onto a canvas at scale 0.4
and reads back the RGBA pixel array; the embedding takes that sampled
frame directly as an `Image` (width, height, flat channel array).
JS `x >> 1` is `x / 2` and `x >> 2` is `x / 4` on the natural numbers
involved; `x << 2` is `x * 4`. -/

/-- A downsampled RGBA frame: `data` is the flat pixel array
(4 entries per pixel), total function as reads stay in range. -/
structure Image where
  width : ℕ
  height : ℕ
  data : ℕ → ℚ

/-- The depth-scorer features consumed by `detectMaskFast`
(`depthResult.features`).  The source field `noseRatio` is here called
`noseFrac`. -/
structure DepthFeatures where
  zVariance : ℚ
  noseFrac : ℚ

/-- The fields of a depth result that `AntiSpoofing.analyze` reads;
optional fields model properties that may be absent on the JS object. -/
structure DepthIn where
  depthScore : Option ℚ
  features : Option DepthFeatures

/-- The fields of a passive-liveness result that `AntiSpoofing.analyze`
reads. -/
structure PassiveIn where
  moireScore : Option ℚ
  temporalScore : Option ℚ

/-- One entry of `AntiSpoofing.analysisHistory` (the five sub-scores
pushed by `analyze`). -/
structure ASEntry where
  photoScore : ℚ
  screenScore : ℚ
  maskScore : ℚ
  deepfakeScore : ℚ
  cutoutScore : ℚ

/-- The result record built by `AntiSpoofing.analyze` (sub-scores
rounded to percentages). -/
structure ASResult where
  photoScore : ℤ
  screenScore : ℤ
  maskScore : ℤ
  deepfakeScore : ℤ
  cutoutScore : ℤ
  temporalBonus : ℤ
  overallScore : ℤ
  isReal : Bool
  attacksDetected : List String
  confidence : String

/-- Mutable state of the `AntiSpoofing` module. -/
structure ASState where
  isReady : Bool
  analysisHistory : List ASEntry
  frameCount : ℕ
  cachedResult : Option ASResult
  lastResult : Option ASResult

namespace AntiSpoofing

/-- Sampled y coordinates of the `detectPhotoFast` loop
(`for (let y = 10; y < h - 10; y += 8)`). -/
def photoYs (h : ℕ) : List ℕ :=
  (List.range h).filter (fun y => decide (10 ≤ y ∧ y < h - 10 ∧ (y - 10) % 8 = 0))

/-- Sampled x coordinates of the `detectPhotoFast` loop (same bounds). -/
def photoXs (w : ℕ) : List ℕ :=
  (List.range w).filter (fun x => decide (10 ≤ x ∧ x < w - 10 ∧ (x - 10) % 8 = 0))

/-- Loop accumulator of `detectPhotoFast`. -/
structure PhotoAcc where
  q1 : ℚ
  q2 : ℚ
  q3 : ℚ
  q4 : ℚ
  count : ℕ
  totalLaplacian : ℚ
  skinPixels : ℕ
  totalSampled : ℕ

/-- One iteration of the `detectPhotoFast` sampling loop: quadrant
brightness sums, fast HSV skin check, and gradient (sharpness) sum. -/
def photoStep (img : Image) (acc : PhotoAcc) (yx : ℕ × ℕ) : PhotoAcc :=
  let y := yx.1
  let x := yx.2
  let w := img.width
  let idx := (y * w + x) * 4
  let r := img.data idx
  let g := img.data (idx + 1)
  let b := img.data (idx + 2)
  let brightness := (r + g + b) * (333/1000)
  let acc1 :=
    if x < w / 2 then
      if y < img.height / 2 then { acc with q1 := acc.q1 + brightness }
      else { acc with q3 := acc.q3 + brightness }
    else
      if y < img.height / 2 then { acc with q2 := acc.q2 + brightness }
      else { acc with q4 := acc.q4 + brightness }
  let acc2 := { acc1 with count := acc1.count + 1 }
  let mx := max r (max g b)
  let mn := min r (min g b)
  let d := mx - mn
  let acc3 :=
    if 10 < d then
      let hue0 :=
        if mx = r then (g - b) / d + (if g < b then (6:ℚ) else 0)
        else if mx = g then (b - r) / d + 2
        else (r - g) / d + 4
      let hue := hue0 / 6
      if (hue < 15/100 ∨ 95/100 < hue) ∧ 15/100 < d / mx then
        { acc2 with skinPixels := acc2.skinPixels + 1 }
      else acc2
    else acc2
  let acc4 := { acc3 with totalSampled := acc3.totalSampled + 1 }
  let valLeft := img.data (idx - 4)
  let valUp := img.data (((y - 1) * w + x) * 4)
  let grad := |r - valLeft| + |r - valUp|
  { acc4 with totalLaplacian := acc4.totalLaplacian + grad }

/-- Embeds `AntiSpoofing.detectPhotoFast`.  Note: when the sampling loop runs
zero times the JS quadrant variance is `NaN` (division by zero) and its
band test is false; the rational embedding divides by zero giving 0 and
the same band test is false, so the two agree on every input this file
evaluates. -/
def detectPhotoFast (img : Image) (depthResult : Option DepthIn) : ℚ :=
  let score0 : ℚ := 1/2
  let score1 :=
    match depthResult with
    | some dr =>
      match dr.depthScore with
      | some ds => if ds ≠ 0 then 3/10 + (ds / 100) * (1/2) else score0
      | none => score0
    | none => score0
  let coords := (photoYs img.height).flatMap (fun y => (photoXs img.width).map (fun x => (y, x)))
  let acc := coords.foldl (photoStep img) ⟨0, 0, 0, 0, 0, 0, 0, 0⟩
  let qCount : ℕ := acc.count / 4
  let avg := (acc.q1 + acc.q2 + acc.q3 + acc.q4) / (acc.count : ℚ)
  let variance := ((acc.q1 / (qCount : ℚ) - avg) ^ 2 + (acc.q2 / (qCount : ℚ) - avg) ^ 2 +
    (acc.q3 / (qCount : ℚ) - avg) ^ 2 + (acc.q4 / (qCount : ℚ) - avg) ^ 2) / 4
  let score2 := if 50 < variance ∧ variance < 500 then score1 + 1/10 else score1
  let skinFrac := if 0 < acc.totalSampled then (acc.skinPixels : ℚ) / (acc.totalSampled : ℚ) else 0
  let score3 := if 3/10 < skinFrac then score2 + 2/10 else score2
  let avgSharpness := if 0 < acc.count then acc.totalLaplacian / (acc.count : ℚ) else 0
  let score4 := if 3 < avgSharpness ∧ avgSharpness < 20 then score3 + 1/10 else score3
  jsMin score4 1

/-- Embeds `AntiSpoofing.detectScreenFast`: maps the moiré score to [0,1] and
penalizes it by half when below 0.6; neutral 0.5 when absent. -/
def detectScreenFast (passiveResult : Option PassiveIn) : ℚ :=
  match passiveResult with
  | some pr =>
    match pr.moireScore with
    | some m =>
      let normalized := m / 100
      if normalized < 6/10 then normalized * (1/2) else normalized
    | none => 1/2
  | none => 1/2

/-- Embeds `AntiSpoofing.detectMaskFast`: 0.5 base plus bonuses from the depth
features; neutral 0.5 when the features are absent. -/
def detectMaskFast (depthResult : Option DepthIn) : ℚ :=
  match depthResult with
  | some dr =>
    match dr.features with
    | some f =>
      let s1 : ℚ := 1/2
      let s2 := if 5/100 < f.zVariance then s1 + 1/4 else s1
      let s3 := if 8/100 < f.noseFrac ∧ f.noseFrac < 25/100 then s2 + 1/4 else s2
      jsMin s3 1
    | none => 1/2
  | none => 1/2

/-- Embeds `AntiSpoofing.detectDeepfakeFast`: temporal score mapped to [0,1];
neutral 0.5 when absent. -/
def detectDeepfakeFast (passiveResult : Option PassiveIn) : ℚ :=
  match passiveResult with
  | some pr =>
    match pr.temporalScore with
    | some t => t / 100
    | none => 1/2
  | none => 1/2

/-- Sampled y coordinates of the `detectCutoutFast` loop
(`for (let y = 5; y < h - 5; y += 15)`). -/
def cutoutYs (h : ℕ) : List ℕ :=
  (List.range h).filter (fun y => decide (5 ≤ y ∧ y < h - 5 ∧ (y - 5) % 15 = 0))

/-- Sampled x coordinates of the `detectCutoutFast` loop. -/
def cutoutXs (w : ℕ) : List ℕ :=
  (List.range w).filter (fun x => decide (5 ≤ x ∧ x < w - 5 ∧ (x - 5) % 15 = 0))

/-- Inner `-2..2` neighbour loop of `detectCutoutFast`: counts
vertically and horizontally similar neighbours (the source's
`hLine`/`vLine`); the loop variable `i = j - 2` for `j = 0..4`, and
`y ≥ 5`, `x ≥ 5` keep the natural-number offsets exact. -/
def cutoutInner (img : Image) (y x : ℕ) : ℕ × ℕ :=
  let w := img.width
  let grayAt := fun (p : ℕ) => (img.data p + img.data (p + 1) + img.data (p + 2)) * (333/1000)
  let gray := grayAt ((y * w + x) * 4)
  ([0, 1, 2, 3, 4] : List ℕ).foldl
    (fun (hv : ℕ × ℕ) j =>
      let hi := ((y + j - 2) * w + x) * 4
      let vi := (y * w + (x + j - 2)) * 4
      let h' := if |gray - grayAt hi| < 5 then hv.1 + 1 else hv.1
      let v' := if |gray - grayAt vi| < 5 then hv.2 + 1 else hv.2
      (h', v'))
    (0, 0)

/-- Embeds `AntiSpoofing.detectCutoutFast`: fraction of samples with at least
4 similar neighbours in a straight line (rectilinear boundary cue). -/
def detectCutoutFast (img : Image) : ℚ :=
  let coords := (cutoutYs img.height).flatMap (fun y => (cutoutXs img.width).map (fun x => (y, x)))
  let acc := coords.foldl
    (fun (re : ℕ × ℕ) yx =>
      let hv := cutoutInner img yx.1 yx.2
      ((if 4 ≤ hv.1 ∨ 4 ≤ hv.2 then re.1 + 1 else re.1), re.2 + 1))
    (0, 0)
  if 0 < acc.2 then 1 - jsMin (((acc.1 : ℚ) / (acc.2 : ℚ)) * 2) (6/10) else 7/10

/-- Embeds `AntiSpoofing.calculateTemporalFast`: temporal-stability bonus from
the variance of the recent photo sub-scores. -/
def calculateTemporalFast (analysisHistory : List ASEntry) : ℚ :=
  if analysisHistory.length < 3 then 1/2
  else
    let recent := analysisHistory.drop (analysisHistory.length - 5)
    let avgPhoto := ((recent.map (fun r => r.photoScore)).sum) / (recent.length : ℚ)
    let variance := ((recent.map (fun r => (r.photoScore - avgPhoto) ^ 2)).sum) / (recent.length : ℚ)
    jsMax (3/10) (1 - jsMin (variance / (2/10)) (1/2))

/-- The attack-label block of `AntiSpoofing.analyze`: one label per
sub-score below 0.5 — for the photo, screen, mask and deepfake scores
(the source has no push for the cutout score). -/
def attackLabels (photoScore screenScore maskScore deepfakeScore : ℚ) : List String :=
  (if photoScore < 1/2 then ["PHOTO_ATTACK"] else []) ++
  (if screenScore < 1/2 then ["SCREEN_REPLAY"] else []) ++
  (if maskScore < 1/2 then ["MASK_DETECTED"] else []) ++
  (if deepfakeScore < 1/2 then ["DEEPFAKE_SUSPECTED"] else [])

/-- The `result.overallScore` formula of `AntiSpoofing.analyze`:
weighted sum photo 0.25 + screen 0.25 + mask 0.20 + deepfake 0.15 +
cutout 0.15 + temporal bonus 0.10, times 100, rounded. -/
def overallScoreQ (p s m d c t : ℚ) : ℤ :=
  jsRound ((p * (25/100) + s * (25/100) + m * (20/100) +
    d * (15/100) + c * (15/100) + t * (10/100)) * 100)

/-- Embeds `AntiSpoofing.analyze`: not-ready and frame-skip cache returns,
then the five sub-detectors, history push, temporal bonus, fusion and
result assembly.  Returns the new module state and the returned value. -/
def analyze (st : ASState) (img : Image) (depthResult : Option DepthIn)
    (passiveResult : Option PassiveIn) : ASState × Option ASResult :=
  if st.isReady = false then (st, st.cachedResult)
  else
    let fc := st.frameCount + 1
    if fc % 3 ≠ 0 ∧ st.cachedResult.isSome then
      ({ st with frameCount := fc }, st.cachedResult)
    else
      let photoScore := detectPhotoFast img depthResult
      let screenScore := detectScreenFast passiveResult
      let maskScore := detectMaskFast depthResult
      let deepfakeScore := detectDeepfakeFast passiveResult
      let cutoutScore := detectCutoutFast img
      let history' := pushBounded antiSpoofMaxHistory st.analysisHistory
        ⟨photoScore, screenScore, maskScore, deepfakeScore, cutoutScore⟩
      let temporalBonus := calculateTemporalFast history'
      let overall := overallScoreQ photoScore screenScore maskScore deepfakeScore
        cutoutScore temporalBonus
      let result : ASResult :=
        { photoScore := jsRound (photoScore * 100)
          screenScore := jsRound (screenScore * 100)
          maskScore := jsRound (maskScore * 100)
          deepfakeScore := jsRound (deepfakeScore * 100)
          cutoutScore := jsRound (cutoutScore * 100)
          temporalBonus := jsRound (temporalBonus * 100)
          overallScore := overall
          isReal := decide (80 < overall)
          attacksDetected := attackLabels photoScore screenScore maskScore deepfakeScore
          confidence := if 85 < overall then "high"
            else if 70 < overall then "medium" else "low" }
      let st' := { st with
        frameCount := fc
        analysisHistory := history'
        cachedResult := some result
        lastResult := some result }
      (st', some result)

end AntiSpoofing

/-- The anti-spoof score-set update of `LivenessApp.startPassiveAnalysis`
(`if (antiSpoofResult) this.securityScores.antiSpoof = antiSpoofResult.overallScore`). -/
def applyAntiSpoofUpdate (s : SecurityScores) (r : Option ASResult) : SecurityScores :=
  match r with
  | some res => { s with antiSpoof := (res.overallScore : ℚ) }
  | none => s

/-! ## Theorems: security-score range (C4) and attack labels (C5)

Concrete analyzer inputs used by the counterexamples below. -/

/-- A 20×20 frame with a strong brightness gradient in both directions
(flat channel value `10·idx`): every `detectCutoutFast` neighbour
differs by far more than the similarity threshold. -/
def imgGradient : Image := ⟨20, 20, fun i => 10 * i⟩

/-- A 20×20 all-black frame: every `detectCutoutFast` neighbour is
identical, so the single sampled point counts as a rectilinear edge. -/
def imgBlack : Image := ⟨20, 20, fun _ => 0⟩

/-- A history entry whose photo sub-score matches the photo score that
`detectPhotoFast` produces for `imgGradient` with full depth backing. -/
def asEntry08 : ASEntry := ⟨4/5, 1, 1, 1, 1⟩

/-- Module state two frames in, with two matching history entries
(frame counter 2, so the next call is the analysed third frame). -/
def asStatePre : ASState := ⟨true, [asEntry08, asEntry08], 2, none, none⟩

/-- Fresh module state. -/
def asStateFresh : ASState := ⟨true, [], 0, none, none⟩

/-- A depth result with maximal depth score and mask-friendly features. -/
def asDepthFull : DepthIn := ⟨some 100, some ⟨1/10, 1/10⟩⟩

/-- A passive result with maximal moiré and temporal scores. -/
def asPassiveFull : PassiveIn := ⟨some 100, some 100⟩

/-- Claim C4, counterexample.  The claim says every value stored in the
security score set is in [0,100], in particular the anti-spoofing
overall score.  The fusion weights sum to 1.10, and on this reachable
input (gradient frame, full depth and passive backing, two stable
history entries) the analyzer returns overall score 105, which
`startPassiveAnalysis` writes into the antiSpoof dimension. -/
theorem securityScores_antiSpoof_exceeds_100 :
    (applyAntiSpoofUpdate ⟨0, 0, 0, 0, 0, 0⟩
      (AntiSpoofing.analyze asStatePre imgGradient
        (some asDepthFull) (some asPassiveFull)).2).antiSpoof = 105 ∧
    100 < (applyAntiSpoofUpdate ⟨0, 0, 0, 0, 0, 0⟩
      (AntiSpoofing.analyze asStatePre imgGradient
        (some asDepthFull) (some asPassiveFull)).2).antiSpoof := by
  have hz : ((AntiSpoofing.analyze asStatePre imgGradient
      (some asDepthFull) (some asPassiveFull)).2.map
        (fun r => r.overallScore)) = some 105 := by
    norm_num [AntiSpoofing.analyze, AntiSpoofing.detectPhotoFast,
      AntiSpoofing.detectScreenFast, AntiSpoofing.detectMaskFast,
      AntiSpoofing.detectDeepfakeFast, AntiSpoofing.detectCutoutFast,
      AntiSpoofing.calculateTemporalFast, AntiSpoofing.overallScoreQ,
      AntiSpoofing.attackLabels, AntiSpoofing.photoYs, AntiSpoofing.photoXs,
      AntiSpoofing.cutoutYs, AntiSpoofing.cutoutXs, AntiSpoofing.cutoutInner,
      AntiSpoofing.photoStep, pushBounded, antiSpoofMaxHistory, jsRound, jsMin,
      jsMax, asStatePre, imgGradient, asDepthFull,
      asPassiveFull, asEntry08, List.range_succ, Int.floor_eq_iff,
      abs_lt, min_def, max_def]
  rw [Option.map_eq_some'] at hz
  obtain ⟨r, hr, hval⟩ := hz
  have h : (applyAntiSpoofUpdate ⟨0, 0, 0, 0, 0, 0⟩
      (AntiSpoofing.analyze asStatePre imgGradient
        (some asDepthFull) (some asPassiveFull)).2).antiSpoof = 105 := by
    rw [hr]
    simp [applyAntiSpoofUpdate, hval]
  exact ⟨h, by rw [h]; norm_num⟩

/-- Claim C4, amended.  The fused anti-spoof overall score is the rounded
weighted sum with weights totalling 110%, so with every sub-score and
the temporal bonus in [0,1] it lies in [0,110] (not [0,100]). -/
theorem antiSpoof_overall_bounded_by_110 :
    ∀ p s m d c t : ℚ, 0 ≤ p → p ≤ 1 → 0 ≤ s → s ≤ 1 → 0 ≤ m → m ≤ 1 →
      0 ≤ d → d ≤ 1 → 0 ≤ c → c ≤ 1 → 0 ≤ t → t ≤ 1 →
      0 ≤ AntiSpoofing.overallScoreQ p s m d c t ∧
        AntiSpoofing.overallScoreQ p s m d c t ≤ 110 := by
  intro p s m d c t hp0 hp1 hs0 hs1 hm0 hm1 hd0 hd1 hc0 hc1 ht0 ht1
  unfold AntiSpoofing.overallScoreQ jsRound
  constructor
  · rw [Int.le_floor]
    push_cast
    nlinarith
  · have h2 : ((p * (25/100) + s * (25/100) + m * (20/100) +
        d * (15/100) + c * (15/100) + t * (10/100)) * 100) + 1/2 < ((111 : ℤ) : ℚ) := by
      push_cast
      nlinarith
    have := Int.floor_lt.mpr h2
    omega

/-- Witness for C4's amended theorem: all six inputs at 1 keep the
overall score within [0,110]. -/
theorem antiSpoof_overall_bounded_by_110_witness :
    0 ≤ AntiSpoofing.overallScoreQ 1 1 1 1 1 1 ∧
      AntiSpoofing.overallScoreQ 1 1 1 1 1 1 ≤ 110 :=
  antiSpoof_overall_bounded_by_110 1 1 1 1 1 1 (by norm_num) (by norm_num)
    (by norm_num) (by norm_num) (by norm_num) (by norm_num) (by norm_num)
    (by norm_num) (by norm_num) (by norm_num) (by norm_num) (by norm_num)

/-- Claim C5, counterexample.  The claim says a label is emitted for every
one of the five sub-scores below 0.5.  On the all-black frame the cutout
sub-score is 0.4 (reported as 40) while no attack label at all is
emitted: the source pushes labels only for photo, screen, mask and
deepfake. -/
theorem cutout_below_half_unlabelled :
    ((AntiSpoofing.analyze asStateFresh imgBlack none (some asPassiveFull)).2.map
      (fun r => (r.cutoutScore, r.attacksDetected))) = some (40, []) := by
  norm_num [AntiSpoofing.analyze, AntiSpoofing.detectPhotoFast,
    AntiSpoofing.detectScreenFast, AntiSpoofing.detectMaskFast,
    AntiSpoofing.detectDeepfakeFast, AntiSpoofing.detectCutoutFast,
    AntiSpoofing.calculateTemporalFast, AntiSpoofing.overallScoreQ,
    AntiSpoofing.attackLabels, AntiSpoofing.photoYs, AntiSpoofing.photoXs,
    AntiSpoofing.cutoutYs, AntiSpoofing.cutoutXs, AntiSpoofing.cutoutInner,
    AntiSpoofing.photoStep, pushBounded, antiSpoofMaxHistory, jsRound, jsMin,
    jsMax, asStateFresh, imgBlack, asPassiveFull, List.range_succ,
    Int.floor_eq_iff, abs_lt, min_def, max_def]

/-- Claim C5, amended.  After each fusion update an attack label is
emitted exactly for each of the photo, screen-replay, mask and deepfake
sub-scores below 0.5; the cutout sub-score emits no label, and no label
other than these four exists. -/
theorem attack_labels_exactly_four :
    ∀ p s m d : ℚ,
      ("PHOTO_ATTACK" ∈ AntiSpoofing.attackLabels p s m d ↔ p < 1/2) ∧
      ("SCREEN_REPLAY" ∈ AntiSpoofing.attackLabels p s m d ↔ s < 1/2) ∧
      ("MASK_DETECTED" ∈ AntiSpoofing.attackLabels p s m d ↔ m < 1/2) ∧
      ("DEEPFAKE_SUSPECTED" ∈ AntiSpoofing.attackLabels p s m d ↔ d < 1/2) ∧
      (∀ l ∈ AntiSpoofing.attackLabels p s m d,
        l = "PHOTO_ATTACK" ∨ l = "SCREEN_REPLAY" ∨
        l = "MASK_DETECTED" ∨ l = "DEEPFAKE_SUSPECTED") := by
  intro p s m d
  unfold AntiSpoofing.attackLabels
  refine ⟨?_, ?_, ?_, ?_, ?_⟩ <;> split_ifs <;> simp_all

/-- Witness for C5's amended theorem: with photo score 0 and the rest
at 1, the photo label is emitted and is one of the four label kinds. -/
theorem attack_labels_exactly_four_witness :
    "PHOTO_ATTACK" ∈ AntiSpoofing.attackLabels 0 1 1 1 ∧
    ("PHOTO_ATTACK" = "PHOTO_ATTACK" ∨ "PHOTO_ATTACK" = "SCREEN_REPLAY" ∨
      "PHOTO_ATTACK" = "MASK_DETECTED" ∨ "PHOTO_ATTACK" = "DEEPFAKE_SUSPECTED") := by
  have hmem := (attack_labels_exactly_four 0 1 1 1).1.mpr (by norm_num)
  exact ⟨hmem, (attack_labels_exactly_four 0 1 1 1).2.2.2.2 "PHOTO_ATTACK" hmem⟩

/-! ## Landmark geometry (`LivenessChallenger`)

Coarse (BlazeFace) landmarks are arrays `[x, y]` indexed 0..5
(rightEye, leftEye, nose, mouth, rightEar, leftEar); dense (FaceMesh)
keypoints are objects `{x, y, z}`.  Frames are embedded as a length
plus an index function, matching array access in the source. -/

/-- A coarse landmark entry `[x, y]`. -/
structure Pt where
  x : ℝ
  y : ℝ

/-- A dense keypoint object `{x, y, z}`. -/
structure KPoint where
  x : ℝ
  y : ℝ
  z : ℝ

/-- A coarse landmark array. -/
structure CoarseFrame where
  len : ℕ
  pt : ℕ → Pt

/-- A dense keypoint array. -/
structure DenseFrame where
  len : ℕ
  pt : ℕ → KPoint

/-- Embeds `LivenessChallenger.calculateDistance`: 2D euclidean distance. -/
noncomputable def calculateDistance (p1 p2 : Pt) : ℝ :=
  Real.sqrt ((p1.x - p2.x) ^ 2 + (p1.y - p2.y) ^ 2)

/-- The local `dist` helper of the dense branches of `verifyBlink` /
`verifySmile` (2D euclidean distance on keypoint objects). -/
noncomputable def distK (p1 p2 : KPoint) : ℝ :=
  Real.sqrt ((p1.x - p2.x) ^ 2 + (p1.y - p2.y) ^ 2)

lemma distK_same_x (a y1 y2 z1 z2 : ℝ) :
    distK ⟨a, y1, z1⟩ ⟨a, y2, z2⟩ = |y1 - y2| := by
  simp only [distK, sub_self, ne_eq, OfNat.ofNat_ne_zero, not_false_eq_true,
    zero_pow, zero_add]
  exact Real.sqrt_sq_eq_abs _

lemma distK_same_y (x1 x2 b z1 z2 : ℝ) :
    distK ⟨x1, b, z1⟩ ⟨x2, b, z2⟩ = |x1 - x2| := by
  simp only [distK, sub_self, ne_eq, OfNat.ofNat_ne_zero, not_false_eq_true,
    zero_pow, add_zero]
  exact Real.sqrt_sq_eq_abs _

lemma calculateDistance_same_y (x1 x2 b : ℝ) :
    calculateDistance ⟨x1, b⟩ ⟨x2, b⟩ = |x1 - x2| := by
  simp only [calculateDistance, sub_self, ne_eq, OfNat.ofNat_ne_zero,
    not_false_eq_true, zero_pow, add_zero]
  exact Real.sqrt_sq_eq_abs _

/-! ## Blink verifier, dense branch (C2) -/

/-- Embeds `LivenessChallenger.blinkRequired = 2`. -/
def blinkRequired : ℕ := 2

/-- The average Eye-Aspect-Ratio of the dense branch of `verifyBlink`:
per-eye vertical opening over horizontal width (left eye keypoints
159/145 over 33/133, right eye 386/374 over 362/263), averaged. -/
noncomputable def avgEAR (lm : ℕ → KPoint) : ℝ :=
  ((distK (lm 159) (lm 145) / distK (lm 33) (lm 133)) +
    (distK (lm 386) (lm 374) / distK (lm 362) (lm 263))) / 2

/-- One call of the dense branch of `verifyBlink` (entered when
`isHighRes && landmarks.length > 10`): increments `blinkCount` whenever
the average EAR is below 0.15 — on every such frame, with no
open/closed debouncing — and reports success once
`blinkCount >= blinkRequired`. -/
noncomputable def verifyBlinkHR (blinkCount : ℕ) (lm : DenseFrame) : ℕ × Bool :=
  let c := if avgEAR lm.pt < 15/100 then blinkCount + 1 else blinkCount
  (c, decide (blinkRequired ≤ c))

/-- Feeding a frame sequence through the dense blink verifier from a
fresh challenge state (`blinkCount = 0`), recording the final count and
whether any call reported success (the state machine completes the
challenge at the first true verdict). -/
noncomputable def runBlinkHR (frames : List DenseFrame) : ℕ × Bool :=
  frames.foldl
    (fun (st : ℕ × Bool) f =>
      let r := verifyBlinkHR st.1 f
      (r.1, st.2 || r.2))
    (0, false)

/-- Spec-side count of closure events of an EAR sequence: the number of
below-0.15 excursions, i.e. positions where the EAR drops below 0.15
coming from a not-closed state. -/
noncomputable def excursionCount (ears : List ℝ) : ℕ :=
  (ears.foldl
    (fun (st : ℕ × Bool) e =>
      ((if e < 15/100 ∧ st.2 = false then st.1 + 1 else st.1),
        (if e < 15/100 then true else false)))
    (0, false)).1

/-- A dense frame whose average EAR is exactly `v / 10`: both eyes have
vertical opening `v` and horizontal width 10 (axis-aligned keypoints). -/
noncomputable def mkBlinkFrame (v : ℝ) : DenseFrame :=
  ⟨468, fun i =>
    if i = 159 then ⟨0, v, 0⟩
    else if i = 145 then ⟨0, 0, 0⟩
    else if i = 33 then ⟨0, 0, 0⟩
    else if i = 133 then ⟨10, 0, 0⟩
    else if i = 386 then ⟨20, v, 0⟩
    else if i = 374 then ⟨20, 0, 0⟩
    else if i = 362 then ⟨20, 0, 0⟩
    else ⟨30, 0, 0⟩⟩

lemma avgEAR_mkBlinkFrame (v : ℝ) (hv : 0 ≤ v) :
    avgEAR (mkBlinkFrame v).pt = v / 10 := by
  have h10 : |(0:ℝ) - 10| = 10 := by norm_num
  have h20 : |(20:ℝ) - 30| = 10 := by norm_num
  simp only [avgEAR, mkBlinkFrame]
  norm_num [distK_same_x, distK_same_y, h10, h20, abs_of_nonneg hv]

/-- An EAR trace with a single below-0.15 excursion that lasts two
frames: open (0.3), closed (0.1), closed (0.1), open (0.3). -/
noncomputable def singleExcursionSeq : List DenseFrame :=
  [mkBlinkFrame 3, mkBlinkFrame 1, mkBlinkFrame 1, mkBlinkFrame 3]

/-- An EAR trace with two separate one-frame excursions below 0.15. -/
noncomputable def twoExcursionSeq : List DenseFrame :=
  [mkBlinkFrame 3, mkBlinkFrame 1, mkBlinkFrame 3, mkBlinkFrame 1, mkBlinkFrame 3]

/-! ## Theorems: dense blink verifier (C2) -/

/-- Claim C2, counterexample.  The claim says an EAR below 0.15 counts as
exactly one closure per physical closure and a single excursion never
yields success.  The dense verifier increments on every below-threshold
frame: this single two-frame excursion records 2 closures and succeeds. -/
theorem blink_single_excursion_succeeds :
    excursionCount (singleExcursionSeq.map (fun f => avgEAR f.pt)) = 1 ∧
    runBlinkHR singleExcursionSeq = (2, true) := by
  have h3 : avgEAR (mkBlinkFrame 3).pt = 3/10 := by
    rw [avgEAR_mkBlinkFrame 3 (by norm_num)]
  have h1 : avgEAR (mkBlinkFrame 1).pt = 1/10 := by
    rw [avgEAR_mkBlinkFrame 1 (by norm_num)]
  constructor
  · norm_num [excursionCount, singleExcursionSeq, h3, h1]
  · norm_num [runBlinkHR, verifyBlinkHR, blinkRequired, singleExcursionSeq, h3, h1]

/-- Claim C2, amended.  The dense blink verifier increments the closure
count on every frame whose average EAR is below 0.15 (not once per
excursion) and succeeds exactly when the count reaches 2: a trace with
two separate one-frame excursions records 2 closures and succeeds (as
the claim says), but success does not require two distinct closures —
any two below-threshold frames suffice — while a trace with a single
below-threshold frame does not succeed. -/
theorem blink_counts_frames_not_closures :
    (∀ (c : ℕ) (f : DenseFrame), avgEAR f.pt < 15/100 →
      verifyBlinkHR c f = (c + 1, decide (2 ≤ c + 1))) ∧
    (∀ (c : ℕ) (f : DenseFrame), 15/100 ≤ avgEAR f.pt →
      verifyBlinkHR c f = (c, decide (2 ≤ c))) ∧
    runBlinkHR twoExcursionSeq = (2, true) ∧
    excursionCount (twoExcursionSeq.map (fun f => avgEAR f.pt)) = 2 ∧
    (runBlinkHR [mkBlinkFrame 3, mkBlinkFrame 1, mkBlinkFrame 3]).2 = false := by
  have h3 : avgEAR (mkBlinkFrame 3).pt = 3/10 := by
    rw [avgEAR_mkBlinkFrame 3 (by norm_num)]
  have h1 : avgEAR (mkBlinkFrame 1).pt = 1/10 := by
    rw [avgEAR_mkBlinkFrame 1 (by norm_num)]
  refine ⟨fun c f hf => ?_, fun c f hf => ?_, ?_, ?_, ?_⟩
  · simp [verifyBlinkHR, blinkRequired, if_pos hf]
  · simp [verifyBlinkHR, blinkRequired, if_neg (not_lt.mpr hf)]
  · norm_num [runBlinkHR, verifyBlinkHR, blinkRequired, twoExcursionSeq, h3, h1]
  · norm_num [excursionCount, twoExcursionSeq, h3, h1]
  · norm_num [runBlinkHR, verifyBlinkHR, blinkRequired, h3, h1]

/-- Witness for C2's amended theorem: a closed frame increments the
count from 0 to 1 without success; an open frame leaves it unchanged. -/
theorem blink_counts_frames_not_closures_witness :
    verifyBlinkHR 0 (mkBlinkFrame 1) = (1, false) ∧
    verifyBlinkHR 1 (mkBlinkFrame 3) = (1, false) := by
  have h1 := blink_counts_frames_not_closures.1 0 (mkBlinkFrame 1)
    (by rw [avgEAR_mkBlinkFrame 1 (by norm_num)]; norm_num)
  have h2 := blink_counts_frames_not_closures.2.1 1 (mkBlinkFrame 3)
    (by rw [avgEAR_mkBlinkFrame 3 (by norm_num)]; norm_num)
  exact ⟨by simpa using h1, by simpa using h2⟩

/-! ## Head-turn verifier (C7) -/

/-- Embeds `LivenessChallenger.headTurnStates`: the three directional flags. -/
structure HeadTurnFlags where
  left : Bool
  center : Bool
  right : Bool

/-- The challenger state read and written by `verifyHeadTurn`: the
directional flags and the rolling landmark history. -/
structure HeadTurnState where
  flags : HeadTurnFlags
  landmarkHistory : List CoarseFrame

/-- The normalized nose offset of `verifyHeadTurn`: nose horizontal
offset from the inter-eye centre, divided by the inter-eye distance. -/
noncomputable def normalizedOffset (lm : ℕ → Pt) : ℝ :=
  (((lm 2).x - ((lm 0).x + (lm 1).x) / 2)) / calculateDistance (lm 0) (lm 1)

/-- Embeds `LivenessChallenger.verifyHeadTurn`: guard on short landmark
arrays, history push, then flag updates — offset below −0.35 sets left,
above +0.35 sets right, magnitude below 0.15 sets centre — and success
exactly when all three flags are set. -/
noncomputable def verifyHeadTurn (st : HeadTurnState) (lm : CoarseFrame) :
    HeadTurnState × Bool :=
  if lm.len < 6 then (st, false)
  else
    let st1 : HeadTurnState := { st with
      landmarkHistory := pushBounded challengerMaxHistoryLength st.landmarkHistory lm }
    let off := normalizedOffset lm.pt
    let flags :=
      if off < -(35/100 : ℝ) then { st1.flags with left := true }
      else if (35/100 : ℝ) < off then { st1.flags with right := true }
      else if |off| < 15/100 then { st1.flags with center := true }
      else st1.flags
    ({ st1 with flags := flags }, flags.left && flags.right && flags.center)

/-- Feeding a frame sequence through `verifyHeadTurn` from a fresh
challenge state (all flags false, empty history), recording whether any
call reported success. -/
noncomputable def runHeadTurn (frames : List CoarseFrame) : HeadTurnState × Bool :=
  frames.foldl
    (fun (st : HeadTurnState × Bool) f =>
      let r := verifyHeadTurn st.1 f
      (r.1, st.2 || r.2))
    (⟨⟨false, false, false⟩, []⟩, false)

/-- A coarse frame with normalized nose offset exactly `off`: eyes at
x = 0 and x = 10 on one horizontal line (inter-eye distance 10), nose
at x = 5 + 10·off. -/
noncomputable def mkTurnFrame (off : ℝ) : CoarseFrame :=
  ⟨6, fun i =>
    if i = 0 then ⟨0, 0⟩
    else if i = 1 then ⟨10, 0⟩
    else if i = 2 then ⟨5 + 10 * off, 5⟩
    else ⟨0, 5⟩⟩

lemma mkTurnFrame_len (off : ℝ) : (mkTurnFrame off).len = 6 := rfl

lemma normalizedOffset_mkTurnFrame (off : ℝ) :
    normalizedOffset (mkTurnFrame off).pt = off := by
  have h10 : |(0:ℝ) - 10| = 10 := by norm_num
  simp only [normalizedOffset, mkTurnFrame]
  norm_num [calculateDistance_same_y, h10]

/-! ## Theorems: head-turn verifier (C7) -/

/-- Claim C7.  For the head-turn verifier on any valid coarse frame:
offset below −0.35 sets the turned-left flag, above +0.35 the
turned-right flag, magnitude below 0.15 the centred flag, and the call
returns success exactly when all three flags are set, regardless of the
order in which they were set; the offset sequence [0, −0.40, 0, 0.40]
succeeds and [0, −0.40, −0.40, −0.40] does not. -/
theorem head_turn_flags_and_success :
    (∀ (st : HeadTurnState) (lm : CoarseFrame), ¬ lm.len < 6 →
      (normalizedOffset lm.pt < -(35/100) →
        (verifyHeadTurn st lm).1.flags = { st.flags with left := true }) ∧
      ((35/100 : ℝ) < normalizedOffset lm.pt →
        (verifyHeadTurn st lm).1.flags = { st.flags with right := true }) ∧
      (|normalizedOffset lm.pt| < 15/100 →
        (verifyHeadTurn st lm).1.flags = { st.flags with center := true }) ∧
      ((verifyHeadTurn st lm).2 = ((verifyHeadTurn st lm).1.flags.left &&
        (verifyHeadTurn st lm).1.flags.right && (verifyHeadTurn st lm).1.flags.center))) ∧
    (runHeadTurn [mkTurnFrame 0, mkTurnFrame (-(2/5)), mkTurnFrame 0,
      mkTurnFrame (2/5)]).2 = true ∧
    (runHeadTurn [mkTurnFrame 0, mkTurnFrame (-(2/5)), mkTurnFrame (-(2/5)),
      mkTurnFrame (-(2/5))]).2 = false := by
  have h0 : normalizedOffset (mkTurnFrame 0).pt = 0 := normalizedOffset_mkTurnFrame 0
  have hl : normalizedOffset (mkTurnFrame (-(2/5))).pt = -(2/5) :=
    normalizedOffset_mkTurnFrame (-(2/5))
  have hr : normalizedOffset (mkTurnFrame (2/5)).pt = 2/5 :=
    normalizedOffset_mkTurnFrame (2/5)
  refine ⟨fun st lm h6 => ⟨fun hL => ?_, fun hR => ?_, fun hC => ?_, ?_⟩, ?_, ?_⟩
  · simp only [verifyHeadTurn, if_neg h6]
    simp [if_pos hL]
  · simp only [verifyHeadTurn, if_neg h6]
    rw [if_neg (by push_neg; linarith), if_pos hR]
  · have habs := abs_lt.mp hC
    simp only [verifyHeadTurn, if_neg h6]
    rw [if_neg (by push_neg; linarith [habs.1]), if_neg (by push_neg; linarith [habs.2]),
      if_pos hC]
  · simp only [verifyHeadTurn, if_neg h6]
  · norm_num [runHeadTurn, verifyHeadTurn, mkTurnFrame_len, h0, hl, hr]
  · norm_num [runHeadTurn, verifyHeadTurn, mkTurnFrame_len, h0, hl, hr]

/-- Witness for C7: from a fresh state, a frame with offset −0.40 sets
exactly the turned-left flag. -/
theorem head_turn_flags_and_success_witness :
    (verifyHeadTurn ⟨⟨false, false, false⟩, []⟩ (mkTurnFrame (-(2/5)))).1.flags =
      ⟨true, false, false⟩ := by
  have h := (head_turn_flags_and_success.1 ⟨⟨false, false, false⟩, []⟩
    (mkTurnFrame (-(2/5))) (by norm_num [mkTurnFrame_len])).1
    (by rw [normalizedOffset_mkTurnFrame]; norm_num)
  simpa using h

/-! ## Micro-expression analyzer (`MicroExpression` module) -/

/-- JS `Math.round` on reals (used where the analyzer works on real
geometry). -/
noncomputable def jsRoundR (r : ℝ) : ℤ := ⌊r + 1/2⌋

/-- One entry of `MicroExpression.landmarkHistory`: the five simplified
key points and the capture timestamp. -/
structure MicroEntry where
  keypoints : List KPoint
  timestamp : ℕ

/-- The result record of `MicroExpression.analyze`.  The warm-up branch
builds `{isReal, score, message, microMovements}` and the full branch
`{isReal, score, naturalness, involuntaryScore, coordinationScore,
microMovements, issues}`; fields absent on one shape are `Option`s. -/
structure MicroResult where
  isReal : Bool
  score : ℤ
  message : Option String
  naturalness : Option ℤ
  involuntaryScore : Option ℤ
  coordinationScore : Option ℤ
  microMovements : ℕ
  issues : List String

/-- Mutable state of the `MicroExpression` module. -/
structure MicroState where
  isReady : Bool
  landmarkHistory : List MicroEntry
  frameCount : ℕ
  cachedResult : Option MicroResult
  lastResult : Option MicroResult

namespace MicroExpression

/-- Embeds `MicroExpression.keyIndices`: nose, both eyes, both mouth corners. -/
def keyIndices : List ℕ := [1, 33, 263, 61, 291]

/-- Embeds `MicroExpression.addToHistory`: stores the five key points
(`keypoints[idx]?.x || 0` reads 0 for a missing point) with a
timestamp, bounded by `maxHistory = 20`. -/
noncomputable def addToHistory (history : List MicroEntry) (kp : DenseFrame)
    (now : ℕ) : List MicroEntry :=
  let simplified := keyIndices.map
    (fun idx => if idx < kp.len then kp.pt idx else ⟨0, 0, 0⟩)
  pushBounded microMaxHistory history ⟨simplified, now⟩

/-- Planar displacement between two keypoints (the movement metric of
`analyzeMovementsFast` and `countMicroMovementsFast`). -/
noncomputable def moveDist (p1 p2 : KPoint) : ℝ :=
  Real.sqrt ((p1.x - p2.x) ^ 2 + (p1.y - p2.y) ^ 2)

/-- Embeds `MicroExpression.analyzeMovementsFast`: average and maximum
displacement of the key points between the two most recent entries. -/
noncomputable def analyzeMovementsFast (history : List MicroEntry) : ℝ × ℝ :=
  if history.length < 2 then (0, 0)
  else
    let curr := (history.getD (history.length - 1) ⟨[], 0⟩).keypoints
    let prev := (history.getD (history.length - 2) ⟨[], 0⟩).keypoints
    let acc := ((List.range curr.length).foldl
      (fun (a : ℝ × ℝ) i =>
        let m := moveDist (curr.getD i ⟨0, 0, 0⟩) (prev.getD i ⟨0, 0, 0⟩)
        (a.1 + m, max a.2 m))
      (0, 0))
    (acc.1 / (curr.length : ℝ), acc.2)

/-- Embeds `MicroExpression.evaluateNaturalnessFast`: piecewise band scoring
of the average displacement. -/
noncomputable def evaluateNaturalnessFast (movements : ℝ × ℝ) : ℝ :=
  let avg := movements.1
  if 5/100 < avg ∧ avg < 3 then 6/10 + avg / 10
  else if avg < 5/100 then 3/10 + avg * 6
  else max (3/10) (1 - (avg - 3) / 10)

/-- Embeds `MicroExpression.detectMicroMovementsFast`: direction-reversal
twitch rate at the eye points over the last 10 entries. -/
noncomputable def detectMicroMovementsFast (history : List MicroEntry) : ℝ :=
  if history.length < 8 then 1/2
  else
    let recent := history.drop (history.length - 10)
    let twitches := (List.range recent.length).foldl
      (fun (t : ℕ) i =>
        if i < 2 then t
        else
          let prev := (recent.getD (i - 2) ⟨[], 0⟩).keypoints
          let mid := (recent.getD (i - 1) ⟨[], 0⟩).keypoints
          let curr := (recent.getD i ⟨[], 0⟩).keypoints
          ([1, 2] : List ℕ).foldl
            (fun (t' : ℕ) j =>
              let move1 := (mid.getD j ⟨0, 0, 0⟩).y - (prev.getD j ⟨0, 0, 0⟩).y
              let move2 := (curr.getD j ⟨0, 0, 0⟩).y - (mid.getD j ⟨0, 0, 0⟩).y
              if 3/10 < |move1| ∧ 3/10 < |move2| ∧ ¬ ((0 < move1) ↔ (0 < move2)) then
                t' + 1
              else t')
            t)
      0
    let twitchFrac := (twitches : ℝ) / (((recent.length - 2) * 2 : ℕ) : ℝ)
    if 1/100 < twitchFrac ∧ twitchFrac < 15/100 then 6/10 + twitchFrac * 2
    else if twitchFrac < 1/100 then 3/10 + twitchFrac * 30
    else max (3/10) (1 - twitchFrac * 3)

/-- Embeds `MicroExpression.analyzeCoordinationFast`: left/right eye vertical
displacement correlation over the last 3 entries. -/
noncomputable def analyzeCoordinationFast (history : List MicroEntry) : ℝ :=
  if history.length < 3 then 1/2
  else
    let latest := history.drop (history.length - 3)
    let corr := (List.range latest.length).foldl
      (fun (c : ℝ) i =>
        if i = 0 then c
        else
          let curr := (latest.getD i ⟨[], 0⟩).keypoints
          let prev := (latest.getD (i - 1) ⟨[], 0⟩).keypoints
          let leftMove := |(curr.getD 1 ⟨0, 0, 0⟩).y - (prev.getD 1 ⟨0, 0, 0⟩).y|
          let rightMove := |(curr.getD 2 ⟨0, 0, 0⟩).y - (prev.getD 2 ⟨0, 0, 0⟩).y|
          if |leftMove - rightMove| < 1 then c + 1/2 else c)
      0
    1/2 + min (corr / ((latest.length - 1 : ℕ) : ℝ)) (1/2)

/-- Embeds `MicroExpression.countMicroMovementsFast`: count of mid-band key
point displacements over the last 5 entries. -/
noncomputable def countMicroMovementsFast (history : List MicroEntry) : ℕ :=
  if history.length < 3 then 0
  else
    let recent := history.drop (history.length - 5)
    (List.range recent.length).foldl
      (fun (n : ℕ) i =>
        if i = 0 then n
        else
          let curr := (recent.getD i ⟨[], 0⟩).keypoints
          let prev := (recent.getD (i - 1) ⟨[], 0⟩).keypoints
          (List.range curr.length).foldl
            (fun (n' : ℕ) j =>
              let m := moveDist (curr.getD j ⟨0, 0, 0⟩) (prev.getD j ⟨0, 0, 0⟩)
              if 2/10 < m ∧ m < 2 then n' + 1 else n')
            n)
      0

/-- The warm-up result returned while fewer than 5 entries have
accumulated: `{ isReal: true, score: 50, message: 'Gathering data...',
microMovements: 0 }`. -/
def warmupResult : MicroResult :=
  ⟨true, 50, some "Gathering data...", none, none, none, 0, []⟩

/-- Embeds `MicroExpression.analyze`: not-ready / missing / short keypoint
guard returning the cache, frame-skip cache, history push, warm-up
neutral result below 5 entries, then the full scoring path. -/
noncomputable def analyze (st : MicroState) (kp : Option DenseFrame) (now : ℕ) :
    MicroState × Option MicroResult :=
  match kp with
  | none => (st, st.cachedResult)
  | some k =>
    if st.isReady = false ∨ k.len < 400 then (st, st.cachedResult)
    else
      let fc := st.frameCount + 1
      if fc % 2 ≠ 0 ∧ st.cachedResult.isSome then
        ({ st with frameCount := fc }, st.cachedResult)
      else
        let history' := addToHistory st.landmarkHistory k now
        if history'.length < 5 then
          ({ st with frameCount := fc, landmarkHistory := history' }, some warmupResult)
        else
          let movements := analyzeMovementsFast history'
          let naturalness := evaluateNaturalnessFast movements
          let involuntaryScore := detectMicroMovementsFast history'
          let coordinationScore := analyzeCoordinationFast history'
          let overallScore := naturalness * (35/100) + involuntaryScore * (35/100) +
            coordinationScore * (30/100)
          let result : MicroResult :=
            { isReal := decide (7/10 < overallScore)
              score := jsRoundR (overallScore * 100)
              message := none
              naturalness := some (jsRoundR (naturalness * 100))
              involuntaryScore := some (jsRoundR (involuntaryScore * 100))
              coordinationScore := some (jsRoundR (coordinationScore * 100))
              microMovements := countMicroMovementsFast history'
              issues := (if naturalness < 1/2 then ["Unnatural movement"] else []) ++
                (if involuntaryScore < 1/2 then ["Missing micro-movements"] else []) }
          let st' := { st with
            frameCount := fc
            landmarkHistory := history'
            cachedResult := some result
            lastResult := some result }
          (st', some result)

end MicroExpression

/-! ## Eye-reflection analyzer (`EyeReflection` module) -/

/-- One entry of `EyeReflection.reflectionHistory`. -/
structure EyeEntry where
  specularScore : ℚ
  consistencyScore : ℚ

/-- The result record of `EyeReflection.analyze`. -/
structure EyeResult where
  isReal : Bool
  score : ℤ
  consistencyScore : ℤ
  specularScore : ℤ
  temporalScore : ℤ
  issues : List String

/-- Mutable state of the `EyeReflection` module. -/
structure EyeState where
  isReady : Bool
  reflectionHistory : List EyeEntry
  frameCount : ℕ
  cachedResult : Option EyeResult
  lastResult : Option EyeResult

namespace EyeReflection

/-- Embeds `EyeReflection.analyzeEyeRegionFast`: sample a 15×15 window around
the eye keypoint (index 33 left / 263 right), scaled by 0.5, counting
near-saturated pixels; the accumulator also carries the (unused)
brightness total as the source computes it. -/
noncomputable def analyzeEyeRegionFast (img : Image) (kp : DenseFrame)
    (eyeIdx : ℕ) : ℚ :=
  if kp.len ≤ eyeIdx then 1/2
  else
    let eye := kp.pt eyeIdx
    let cx : ℤ := ⌊eye.x * (1/2 : ℝ)⌋
    let cy : ℤ := ⌊eye.y * (1/2 : ℝ)⌋
    let offs : List ℤ := (List.range 15).map (fun j => (j : ℤ) - 7)
    let acc := (offs.flatMap (fun dy => offs.map (fun dx => (dy, dx)))).foldl
      (fun (a : ℚ × ℕ × ℕ) dd =>
        let x := cx + dd.2
        let y := cy + dd.1
        if x < 0 ∨ (img.width : ℤ) ≤ x ∨ y < 0 ∨ (img.height : ℤ) ≤ y then a
        else
          let idx := ((y * (img.width : ℤ) + x) * 4).toNat
          let brightness := (img.data idx + img.data (idx + 1) + img.data (idx + 2)) *
            (333/1000)
          (a.1 + brightness, a.2.1 + 1, if 200 < brightness then a.2.2 + 1 else a.2.2))
      (0, 0, 0)
    if acc.2.1 = 0 then 1/2
    else
      let brightFrac := (acc.2.2 : ℚ) / (acc.2.1 : ℚ)
      if 1/100 < brightFrac ∧ brightFrac < 15/100 then 6/10 + brightFrac * 2
      else if 15/100 < brightFrac then 4/10
      else 3/10 + brightFrac * 10

/-- Embeds `EyeReflection.calculateTemporalFast`: variance band of the recent
specular scores. -/
def calculateTemporalFast (history : List EyeEntry) : ℚ :=
  if history.length < 3 then 1/2
  else
    let recent := history.drop (history.length - 5)
    let scores := recent.map (fun r => r.specularScore)
    let mean := scores.sum / (scores.length : ℚ)
    let variance := (scores.map (fun v => (v - mean) ^ 2)).sum / (scores.length : ℚ)
    if 1/1000 < variance ∧ variance < 5/100 then 8/10
    else jsMax (3/10) (7/10 - variance * 5)

/-- Embeds `EyeReflection.analyze`: not-ready / missing / short keypoint guard
returning the cache, frame-skip cache, then the specular /
consistency / temporal scoring path. -/
noncomputable def analyze (st : EyeState) (img : Image) (kp : Option DenseFrame) :
    EyeState × Option EyeResult :=
  match kp with
  | none => (st, st.cachedResult)
  | some k =>
    if st.isReady = false ∨ k.len < 400 then (st, st.cachedResult)
    else
      let fc := st.frameCount + 1
      if fc % 3 ≠ 0 ∧ st.cachedResult.isSome then
        ({ st with frameCount := fc }, st.cachedResult)
      else
        let leftEyeScore := analyzeEyeRegionFast img k 33
        let rightEyeScore := analyzeEyeRegionFast img k 263
        let specularScore := (leftEyeScore + rightEyeScore) * (1/2)
        let consistencyScore : ℚ :=
          if |leftEyeScore - rightEyeScore| < 3/10 then 8/10 else 1/2
        let history' := pushBounded eyeMaxHistory st.reflectionHistory
          ⟨specularScore, consistencyScore⟩
        let temporalScore := calculateTemporalFast history'
        let overallScore := specularScore * (1/2) + consistencyScore * (1/4) +
          temporalScore * (1/4)
        let result : EyeResult :=
          { isReal := decide (7/10 < overallScore)
            score := jsRound (overallScore * 100)
            consistencyScore := jsRound (consistencyScore * 100)
            specularScore := jsRound (specularScore * 100)
            temporalScore := jsRound (temporalScore * 100)
            issues := if specularScore < 1/2 then ["Missing eye reflections"] else [] }
        let st' := { st with
          frameCount := fc
          reflectionHistory := history'
          cachedResult := some result
          lastResult := some result }
        (st', some result)

end EyeReflection

/-! ## Depth estimator (`js/depthEstimator.js`) -/

/-- The feature record of `DepthEstimator.extractFeaturesFast`
(the source field `noseRatio` is here called `noseFrac`). -/
structure DepthFeaturesFull where
  eyeDistance : ℝ
  noseProtrusion : ℝ
  noseFrac : ℝ
  zVariance : ℝ
  timestamp : ℕ

/-- The result record of `DepthEstimator.estimateDepth`; the no-face
branch builds `{isReal, score, reason}` only, so the remaining fields
are `Option`s. -/
structure DepthResult where
  isReal : Bool
  score : ℤ
  reason : Option String
  depthScore : Option ℤ
  consistencyScore : Option ℤ
  features : Option DepthFeaturesFull
  keypoints : Option DenseFrame

/-- Mutable state of the `DepthEstimator` module. -/
structure DepthState where
  isModelLoaded : Bool
  depthHistory : List DepthFeaturesFull
  frameCount : ℕ
  cachedResult : Option DepthResult

namespace DepthEstimator

/-- The `dist` helper of `DepthEstimator` (3D euclidean distance,
`z || 0` read as the stored z). -/
noncomputable def dist3 (p1 p2 : KPoint) : ℝ :=
  Real.sqrt ((p1.x - p2.x) ^ 2 + (p1.y - p2.y) ^ 2 + (p1.z - p2.z) ^ 2)

/-- Embeds `DepthEstimator.extractFeaturesFast` over the key points
noseTip 1, leftEye 33, rightEye 263, chin 152, forehead 10. -/
noncomputable def extractFeaturesFast (kp : ℕ → KPoint) (now : ℕ) :
    DepthFeaturesFull :=
  let nose := kp 1
  let leftEye := kp 33
  let rightEye := kp 263
  let chin := kp 152
  let forehead := kp 10
  let eyeDistance := dist3 leftEye rightEye
  let eyeCenterZ := (leftEye.z + rightEye.z) * (1/2)
  let noseProtrusion := |nose.z - eyeCenterZ|
  let noseFrac := noseProtrusion / eyeDistance
  let zMean := (nose.z + leftEye.z + rightEye.z + chin.z + forehead.z) / 5
  let zVariance := Real.sqrt (((nose.z - zMean) ^ 2 + (leftEye.z - zMean) ^ 2 +
    (rightEye.z - zMean) ^ 2 + (chin.z - zMean) ^ 2 + (forehead.z - zMean) ^ 2) / 5)
  ⟨eyeDistance, noseProtrusion, noseFrac, zVariance, now⟩

/-- Embeds `DepthEstimator.calculateScoreFast`: additive threshold scoring of
the structural features (base 0.30, capped at 1). -/
noncomputable def calculateScoreFast (f : DepthFeaturesFull) : ℝ :=
  let s1 : ℝ := if 5/100 < f.noseFrac then 25/100 else 0
  let s2 := s1 + (if 1/10 < f.noseFrac then 15/100 else 0)
  let s3 := s2 + (if 1/100 < f.zVariance then 20/100 else 0)
  let s4 := s3 + (if 3/100 < f.zVariance then 1/10 else 0)
  min (s4 + 3/10) 1

/-- Embeds `DepthEstimator.calculateConsistencyFast`: variance band of the
recent nose-protrusion fractions. -/
noncomputable def calculateConsistencyFast (history : List DepthFeaturesFull) : ℝ :=
  if history.length < 3 then 1/2
  else
    let recent := history.drop (history.length - 5)
    let fracs := recent.map (fun f => f.noseFrac)
    let mean := fracs.sum / (fracs.length : ℝ)
    let variance := (fracs.map (fun n => (n - mean) ^ 2)).sum / (fracs.length : ℝ)
    if 1/1000 < variance ∧ variance < 5/100 then 8/10
    else max (3/10) (7/10 - variance * 10)

/-- The no-face result of `estimateDepth`
(`{ isReal: false, score: 0, reason: 'No face detected' }`). -/
def noFaceResult : DepthResult :=
  ⟨false, 0, some "No face detected", none, none, none, none⟩

/-- Embeds `DepthEstimator.estimateDepth`.  The external FaceMesh inference is
the `faces` argument (the detector is out of scope); the not-loaded and
frame-skip branches return the cache, the empty-faces branch returns
the score-0 no-face record, and the main branch scores the first face.
The source's catch-all error branch (returning the cache) has no
counterpart because the embedding is total. -/
noncomputable def estimateDepth (st : DepthState) (faces : List DenseFrame)
    (now : ℕ) : DepthState × Option DepthResult :=
  if st.isModelLoaded = false then (st, st.cachedResult)
  else
    let fc := st.frameCount + 1
    if fc % 2 ≠ 0 ∧ st.cachedResult.isSome then
      ({ st with frameCount := fc }, st.cachedResult)
    else
      match faces with
      | [] => ({ st with frameCount := fc }, some noFaceResult)
      | f :: _ =>
        let features := extractFeaturesFast f.pt now
        let depthScore := calculateScoreFast features
        let history' := pushBounded depthMaxHistory st.depthHistory features
        let consistencyScore := calculateConsistencyFast history'
        let combinedScore := depthScore * (6/10) + consistencyScore * (4/10)
        let result : DepthResult :=
          { isReal := decide ((6/10 : ℝ) < combinedScore)
            score := jsRoundR (combinedScore * 100)
            reason := none
            depthScore := some (jsRoundR (depthScore * 100))
            consistencyScore := some (jsRoundR (consistencyScore * 100))
            features := some features
            keypoints := some f }
        let st' := { st with
          frameCount := fc
          depthHistory := history'
          cachedResult := some result }
        (st', some result)

end DepthEstimator

/-! ## Theorems: warm-up neutrality (C10) and insufficient input (C6) -/

lemma mkBlinkFrame_len (v : ℝ) : (mkBlinkFrame v).len = 468 := rfl

/-- A too-short dense frame (10 keypoints, below the 400 minimum). -/
noncomputable def smallFrame : DenseFrame := ⟨10, fun _ => ⟨0, 0, 0⟩⟩

/-- Claim C10.  During the micro-expression analyzer's warm-up (fewer
than 5 accumulated history entries, counting the entry the call itself
stores), a call with a valid dense landmark set (at least 400
keypoints) returns the neutral result with `isReal = true` and
`score = 50`. -/
theorem micro_warmup_reports_real_50 :
    ∀ (st : MicroState) (k : DenseFrame) (now : ℕ),
      st.isReady = true → st.cachedResult = none → 400 ≤ k.len →
      st.landmarkHistory.length + 1 < 5 →
      (MicroExpression.analyze st (some k) now).2 = some MicroExpression.warmupResult ∧
      MicroExpression.warmupResult.isReal = true ∧
      MicroExpression.warmupResult.score = 50 := by
  intro st k now hready hcache hklen hhist
  have hklt : ¬ k.len < 400 := by omega
  have hlen2 : (MicroExpression.addToHistory st.landmarkHistory k now).length =
      st.landmarkHistory.length + 1 := by
    simp only [MicroExpression.addToHistory, pushBounded, microMaxHistory]
    rw [if_neg (by simp; omega)]
    simp
  have hhl : (MicroExpression.addToHistory st.landmarkHistory k now).length < 5 := by
    omega
  refine ⟨?_, rfl, rfl⟩
  simp only [MicroExpression.analyze, hready, hcache]
  simp [hklt, hhl]

/-- Witness for C10: a fresh analyzer state fed one valid dense frame
returns the neutral warm-up result. -/
theorem micro_warmup_reports_real_50_witness :
    (MicroExpression.analyze ⟨true, [], 0, none, none⟩
      (some (mkBlinkFrame 1)) 0).2 = some MicroExpression.warmupResult ∧
    MicroExpression.warmupResult.isReal = true ∧
    MicroExpression.warmupResult.score = 50 :=
  micro_warmup_reports_real_50 ⟨true, [], 0, none, none⟩ (mkBlinkFrame 1) 0
    rfl rfl (by rw [mkBlinkFrame_len]; omega) (by simp)

/-- Claim C6.  On input insufficiency the analyzers degrade instead of
failing: the eye-reflection and micro-expression analyzers return their
cached result on a missing or too-short (< 400 keypoints) landmark set,
and the depth estimator on an empty face list returns either its cached
result (frame-skip) or the neutral score-0 no-face record; all three
are total functions, so no such call throws. -/
theorem analyzers_tolerate_insufficient_input :
    (∀ (st : EyeState) (img : Image),
      (EyeReflection.analyze st img none).2 = st.cachedResult ∧
      (∀ k : DenseFrame, k.len < 400 →
        (EyeReflection.analyze st img (some k)).2 = st.cachedResult)) ∧
    (∀ (st : MicroState) (now : ℕ),
      (MicroExpression.analyze st none now).2 = st.cachedResult ∧
      (∀ k : DenseFrame, k.len < 400 →
        (MicroExpression.analyze st (some k) now).2 = st.cachedResult)) ∧
    (∀ (st : DepthState) (now : ℕ),
      (DepthEstimator.estimateDepth st [] now).2 = st.cachedResult ∨
      (DepthEstimator.estimateDepth st [] now).2 = some DepthEstimator.noFaceResult) := by
  refine ⟨fun st img => ⟨rfl, fun k hk => ?_⟩, fun st now => ⟨rfl, fun k hk => ?_⟩,
    fun st now => ?_⟩
  · simp only [EyeReflection.analyze]
    rw [if_pos (Or.inr hk)]
  · simp only [MicroExpression.analyze]
    rw [if_pos (Or.inr hk)]
  · by_cases hload : st.isModelLoaded = false
    · left
      simp [DepthEstimator.estimateDepth, hload]
    · simp only [DepthEstimator.estimateDepth]
      rw [if_neg hload]
      by_cases hskip : (st.frameCount + 1) % 2 ≠ 0 ∧ st.cachedResult.isSome = true
      · left
        rw [if_pos hskip]
      · right
        rw [if_neg hskip]

/-- Witness for C6: fresh analyzer states on a 10-point frame return
their (empty) caches, and the fresh depth estimator on no faces returns
the no-face record. -/
theorem analyzers_tolerate_insufficient_input_witness :
    (EyeReflection.analyze ⟨true, [], 0, none, none⟩ imgBlack (some smallFrame)).2 = none ∧
    (MicroExpression.analyze ⟨true, [], 0, none, none⟩ (some smallFrame) 0).2 = none ∧
    ((DepthEstimator.estimateDepth ⟨true, [], 0, none⟩ [] 0).2 = none ∨
      (DepthEstimator.estimateDepth ⟨true, [], 0, none⟩ [] 0).2 =
        some DepthEstimator.noFaceResult) := by
  have he := (analyzers_tolerate_insufficient_input.1 ⟨true, [], 0, none, none⟩
    imgBlack).2 smallFrame (by norm_num [smallFrame])
  have hm := (analyzers_tolerate_insufficient_input.2.1 ⟨true, [], 0, none, none⟩
    0).2 smallFrame (by norm_num [smallFrame])
  have hd := analyzers_tolerate_insufficient_input.2.2 ⟨true, [], 0, none⟩ 0
  exact ⟨he, hm, hd⟩

/-! ## Timers and attempt cancellation (C9)

The timer-relevant state of `LivenessApp` + `LivenessChallenger`.
`initChallengeState` arms a challenge timeout with `setTimeout` and
stores no handle, so no code path can call `clearTimeout` on it; the
timeout callback runs
`if (this.isActive && this.currentChallenge) completeChallenge(false)`
against whatever state holds when it fires.  The progress interval
clears itself on its next tick once `isActive` is false, and
`stopPassiveAnalysis` clears the passive-analysis interval. -/

/-- Timer-relevant application state: challenger activity and session,
plus the armed timers (counts of pending `setTimeout`/`setInterval`
callbacks). -/
structure CancellationState where
  isActive : Bool
  currentChallenge : Option ChallengeId
  challengeHistory : List ChallengeResult
  armedChallengeTimeouts : ℕ
  progressIntervals : ℕ
  passiveIntervalActive : Bool
  deriving DecidableEq

/-- Embeds `LivenessChallenger.initChallengeState` (timer-relevant part):
activates the session and arms one challenge timeout and one progress
interval; the per-gesture counters it also resets are modelled with the
individual verifiers. -/
def initChallengeState (s : CancellationState) : CancellationState :=
  { s with
    isActive := true
    armedChallengeTimeouts := s.armedChallengeTimeouts + 1
    progressIntervals := s.progressIntervals + 1 }

/-- Embeds `startChallengeExplicit` (or `startChallenge` after selection):
sets the current challenge and runs `initChallengeState`. -/
def startChallengeWith (s : CancellationState) (c : ChallengeId) : CancellationState :=
  initChallengeState { s with currentChallenge := some c }

/-- Embeds `LivenessChallenger.completeChallenge`: no-op without a current
challenge; otherwise deactivates, records the result and clears the
current challenge. -/
def completeChallenge (s : CancellationState) (success : Bool) : CancellationState :=
  match s.currentChallenge with
  | none => s
  | some c =>
    { s with
      isActive := false
      challengeHistory := s.challengeHistory ++ [⟨c, success⟩]
      currentChallenge := none }

/-- One armed challenge-timeout callback firing:
`if (this.isActive && this.currentChallenge) completeChallenge(false)`.
The callback consumes its timeout and reads the *current* state — which
may belong to a later attempt than the one that armed it. -/
def fireChallengeTimeout (s : CancellationState) : CancellationState :=
  if s.armedChallengeTimeouts = 0 then s
  else
    let s1 := { s with armedChallengeTimeouts := s.armedChallengeTimeouts - 1 }
    if s1.isActive = true ∧ s1.currentChallenge.isSome then completeChallenge s1 false
    else s1

/-- One progress-interval tick: with the session inactive the interval
clears itself (`clearInterval(progressInterval); return`); progress
emission while active is presentation-layer and not modelled. -/
def fireProgressTick (s : CancellationState) : CancellationState :=
  if s.isActive = false ∧ 0 < s.progressIntervals then
    { s with progressIntervals := s.progressIntervals - 1 }
  else s

/-- Embeds `LivenessApp.startPassiveAnalysis` (timer-relevant part): arms the
passive-analysis interval. -/
def startPassiveAnalysis (s : CancellationState) : CancellationState :=
  { s with passiveIntervalActive := true }

/-- Embeds `LivenessApp.stopPassiveAnalysis`: clears the passive-analysis
interval. -/
def stopPassiveAnalysis (s : CancellationState) : CancellationState :=
  { s with passiveIntervalActive := false }

/-- Embeds `LivenessChallenger.reset` (timer-relevant part): deactivates and
clears the session and history; it touches no timer, and the armed
challenge timeout in particular stays pending. -/
def challengerReset (s : CancellationState) : CancellationState :=
  { s with isActive := false, currentChallenge := none, challengeHistory := [] }

/-- Embeds `LivenessApp.resetApp` (timer-relevant part): challenger reset plus
`stopPassiveAnalysis` (the module resets and media teardown it also
performs have no timer state). -/
def resetApp (s : CancellationState) : CancellationState :=
  stopPassiveAnalysis (challengerReset s)

/-- State after: attempt 1 starts a blink challenge (arming its
timeout), then the user resets the app. -/
def cxAfterReset : CancellationState :=
  resetApp (startChallengeWith
    (startPassiveAnalysis ⟨false, none, [], 0, 0, false⟩) ChallengeId.blink)

/-- State after: attempt 2 then starts a smile challenge, and attempt
1's still-armed timeout fires. -/
def cxSecondAttempt : CancellationState :=
  fireChallengeTimeout (startChallengeWith
    (startPassiveAnalysis cxAfterReset) ChallengeId.smile)

/-! ## Theorems: cancellation (C9) -/

/-- Claim C9, counterexample.  The claim says resetting clears every
pending timer and no partial state of the stopped attempt can affect
the next attempt.  After attempt 1 armed its challenge timeout and the
app was reset, that timeout is still armed; when attempt 2's smile
challenge is active and the stale timeout fires, it records a failure
for attempt 2's challenge and deactivates it. -/
theorem stale_timeout_fails_next_attempt :
    cxAfterReset.armedChallengeTimeouts = 1 ∧
    cxSecondAttempt.challengeHistory = [⟨ChallengeId.smile, false⟩] ∧
    cxSecondAttempt.isActive = false := by
  decide

/-- Claim C9, amended.  Stopping or resetting an attempt clears the
passive-analysis tick and deactivates the challenger session (so the
progress tick clears itself on its next tick), but the challenge
timeout timer is never cleared — it stays armed, is harmless while the
challenger is idle, and if it fires while a later challenge is active
it completes that challenge as a failure. -/
theorem reset_clears_passive_tick_but_not_timeout :
    ∀ (s s' : CancellationState) (c : ChallengeId),
      ((resetApp s).passiveIntervalActive = false ∧
        (resetApp s).isActive = false ∧
        (resetApp s).currentChallenge = none ∧
        (resetApp s).armedChallengeTimeouts = s.armedChallengeTimeouts) ∧
      (s'.isActive = false →
        (fireChallengeTimeout s').challengeHistory = s'.challengeHistory) ∧
      (s'.isActive = true → s'.currentChallenge = some c →
        0 < s'.armedChallengeTimeouts →
        (fireChallengeTimeout s').challengeHistory =
          s'.challengeHistory ++ [⟨c, false⟩] ∧
        (fireChallengeTimeout s').isActive = false) ∧
      (s'.isActive = false → 0 < s'.progressIntervals →
        (fireProgressTick s').progressIntervals = s'.progressIntervals - 1) := by
  intro s s' c
  refine ⟨⟨rfl, rfl, rfl, rfl⟩, fun hidle => ?_, fun hact hcur harm => ?_,
    fun hidle hprog => ?_⟩
  · unfold fireChallengeTimeout
    by_cases h0 : s'.armedChallengeTimeouts = 0
    · rw [if_pos h0]
    · rw [if_neg h0, if_neg (by simp [hidle])]
  · unfold fireChallengeTimeout
    rw [if_neg (by omega), if_pos (by simp [hact, hcur])]
    unfold completeChallenge
    constructor <;> simp [hcur]
  · unfold fireProgressTick
    rw [if_pos ⟨hidle, hprog⟩]

/-- Witness for C9's amended theorem: a stale timeout firing during an
active smile challenge records its failure; an idle state keeps its
history; an inactive progress tick clears itself. -/
theorem reset_clears_passive_tick_but_not_timeout_witness :
    (fireChallengeTimeout ⟨true, some ChallengeId.smile, [], 1, 1, true⟩).challengeHistory =
      [⟨ChallengeId.smile, false⟩] ∧
    (fireChallengeTimeout ⟨false, none, [], 1, 0, false⟩).challengeHistory = [] ∧
    (fireProgressTick ⟨false, none, [], 0, 1, false⟩).progressIntervals = 0 := by
  have h1 := (reset_clears_passive_tick_but_not_timeout
    ⟨false, none, [], 0, 0, false⟩ ⟨true, some ChallengeId.smile, [], 1, 1, true⟩
    ChallengeId.smile).2.2.1 rfl rfl (by norm_num)
  have h2 := (reset_clears_passive_tick_but_not_timeout
    ⟨false, none, [], 0, 0, false⟩ ⟨false, none, [], 1, 0, false⟩
    ChallengeId.smile).2.1 rfl
  have h3 := (reset_clears_passive_tick_but_not_timeout
    ⟨false, none, [], 0, 0, false⟩ ⟨false, none, [], 0, 1, false⟩
    ChallengeId.smile).2.2.2 rfl (by norm_num)
  exact ⟨by simpa using h1.1, h2, by simpa using h3⟩

end FaceVerify
